import Mathlib

/-!
Shallow embedding of `src/searxng.py` (classes `SearchResult`,
`SearchParameters`, `SearXNG`) for verifying the repository's
specification.  Python dicts are modelled as insertion-ordered
association lists, Python's dynamically typed JSON values as an
inductive `Json` type, Python floats as rationals (the claims only
involve exact small values such as `0.0`), and raised exceptions as
`Except PyError`.
-/

set_option autoImplicit false

namespace Searxng

/-- Python exceptions that the code under verification can raise. -/
inductive PyError where
  | keyError (key : String)
  | valueError (msg : String)
  | typeError (msg : String)
  | attributeError (msg : String)
  deriving DecidableEq, Repr

/-- JSON values, as produced by `response.json()`.  Numbers are modelled
as rationals. -/
inductive Json where
  | null
  | bool (b : Bool)
  | num (q : Rat)
  | str (s : String)
  | arr (elems : List Json)
  | obj (fields : List (String × Json))
  deriving Repr

/-- A Python `str`-keyed dict whose values are strings, in insertion
order (this is how request parameter dicts behave). -/
abbrev Dict := List (String × String)

/-- Python dict item assignment `d[k] = v` (also `d.update({k: v})`):
if the key is present its value is replaced in place, keeping its
position; otherwise the pair is appended at the end. -/
def dictSet (d : Dict) (k v : String) : Dict :=
  bif d.any (fun p => p.1 == k) then
    d.map (fun p => bif p.1 == k then (k, v) else p)
  else
    d ++ [(k, v)]

/-- Python dict lookup `d[k]` on a string dict: the value stored under
the first (and only) occurrence of the key. -/
def dictFind (d : Dict) (k : String) : Option String :=
  match d with
  | [] => none
  | (k', v) :: rest => bif k' == k then some v else dictFind rest k

/-- First value stored under a key in an association list of JSON
fields (Python dict lookup; JSON objects have unique keys). -/
def jsonGet (fields : List (String × Json)) (k : String) : Option Json :=
  match fields with
  | [] => none
  | (k', v) :: rest => if k' = k then some v else jsonGet rest k

/-- Digit characters to the natural number they denote. -/
def digitsToNat (ds : List Char) : Nat :=
  ds.foldl (fun a c => a * 10 + (c.toNat - Char.toNat '0')) 0

/-- Simplified model of Python's `float(string)` conversion: an
optional sign followed by integer and/or fractional digit parts
(exponents, `inf`/`nan` and surrounding whitespace are not modelled;
the claims only distinguish parseable from unparseable strings). -/
def pyFloatOfString (s : String) : Option Rat :=
  let cs := s.toList
  let signed : Bool × List Char :=
    match cs with
    | '-' :: r => (true, r)
    | '+' :: r => (false, r)
    | r => (false, r)
  let ds := signed.2.takeWhile (fun c => c.isDigit)
  let rest := signed.2.dropWhile (fun c => c.isDigit)
  let mag : Option Rat :=
    match rest with
    | [] => if ds.isEmpty then none else some (digitsToNat ds)
    | '.' :: fs =>
      if fs.all (fun c => c.isDigit) && (!ds.isEmpty || !fs.isEmpty) then
        some ((digitsToNat ds : Rat) + (digitsToNat fs : Rat) / ((10 : Rat) ^ fs.length))
      else none
    | _ => none
  mag.map (fun v => if signed.1 then -v else v)

/-- Python's `float(x)` builtin on a JSON value: numbers pass through,
booleans coerce to `1`/`0`, numeric strings are parsed, everything
else raises. -/
def pyFloat : Json → Except PyError Rat
  | .num q => .ok q
  | .bool b => .ok (if b then 1 else 0)
  | .str s =>
    match pyFloatOfString s with
    | some q => .ok q
    | none => .error (.valueError ("could not convert string to float: " ++ s))
  | _ => .error (.typeError "float() argument must be a string or a real number")

/-- One search result, as stored by `SearchResult.__init__`: the raw
JSON values are stored unchanged (Python's type annotations are not
enforced), except `score`, which the caller has already coerced with
`float`. -/
structure SearchResult where
  url : Json
  title : Json
  thumbnail : Json
  positions : Json
  score : Rat
  deriving Repr

/-- The `SearchParameters` class: one field per constructor argument
plus the fixed `format` field. -/
structure SearchParameters where
  categories : List String
  engines : List String
  language : String
  pageno : Int
  time_range : String
  image_proxy : Bool
  safe_search : String
  enabled_plugins : List String
  disabled_plugins : List String
  enabled_engines : List String
  disabled_engines : List String
  format : String
  deriving Repr

namespace SearchParameters

/-- The constructor `SearchParameters.__init__`: stores every argument
and fixes `format` to `"json"`. -/
def init (categories : List String := []) (engines : List String := [])
    (language : String := "") (pageno : Int := 1) (time_range : String := "")
    (image_proxy : Bool := true) (safe_search : String := "")
    (enabled_plugins : List String := []) (disabled_plugins : List String := [])
    (enabled_engines : List String := []) (disabled_engines : List String := []) :
    SearchParameters :=
  { categories := categories
    engines := engines
    language := language
    pageno := pageno
    time_range := time_range
    image_proxy := image_proxy
    safe_search := safe_search
    enabled_plugins := enabled_plugins
    disabled_plugins := disabled_plugins
    enabled_engines := enabled_engines
    disabled_engines := disabled_engines
    format := "json" }

/-- The method `SearchParameters.update`: each argument defaults to the
sentinel `None` (here `none`); a non-sentinel argument overwrites the
corresponding field, sequentially as in the source. -/
def update (p : SearchParameters)
    (categories : Option (List String) := none)
    (engines : Option (List String) := none)
    (language : Option String := none)
    (pageno : Option Int := none)
    (time_range : Option String := none)
    (image_proxy : Option Bool := none)
    (safe_search : Option String := none)
    (enabled_plugins : Option (List String) := none)
    (disabled_plugins : Option (List String) := none)
    (enabled_engines : Option (List String) := none)
    (disabled_engines : Option (List String) := none) : SearchParameters :=
  let p := match categories with | none => p | some v => { p with categories := v }
  let p := match engines with | none => p | some v => { p with engines := v }
  let p := match language with | none => p | some v => { p with language := v }
  let p := match pageno with | none => p | some v => { p with pageno := v }
  let p := match time_range with | none => p | some v => { p with time_range := v }
  let p := match image_proxy with | none => p | some v => { p with image_proxy := v }
  let p := match safe_search with | none => p | some v => { p with safe_search := v }
  let p := match enabled_plugins with | none => p | some v => { p with enabled_plugins := v }
  let p := match disabled_plugins with | none => p | some v => { p with disabled_plugins := v }
  let p := match enabled_engines with | none => p | some v => { p with enabled_engines := v }
  let p := match disabled_engines with | none => p | some v => { p with disabled_engines := v }
  p

/-- Python's `str` on a bool: `"True"` or `"False"`. -/
def pyStrBool (b : Bool) : String := if b then "True" else "False"

/-- The method `SearchParameters.as_dict`: always emits `pageno`,
`format` and `image_proxy`, then conditionally adds each non-empty
field (Python truthiness for lists, inequality with `""` for
strings). -/
def as_dict (p : SearchParameters) : Dict :=
  let d : Dict :=
    [("pageno", toString p.pageno), ("format", p.format),
     ("image_proxy", pyStrBool p.image_proxy)]
  let d := if p.categories ≠ [] then dictSet d "categories" (String.intercalate "," p.categories) else d
  let d := if p.engines ≠ [] then dictSet d "engines" (String.intercalate "," p.engines) else d
  let d := if p.language ≠ "" then dictSet d "language" p.language else d
  let d := if p.safe_search ≠ "" then dictSet d "safe_search" p.safe_search else d
  let d := if p.enabled_plugins ≠ [] then dictSet d "enabled_plugins" (String.intercalate "," p.enabled_plugins) else d
  let d := if p.disabled_plugins ≠ [] then dictSet d "disabled_plugins" (String.intercalate "," p.disabled_plugins) else d
  let d := if p.enabled_engines ≠ [] then dictSet d "enabled_engines" (String.intercalate "," p.enabled_engines) else d
  let d := if p.disabled_engines ≠ [] then dictSet d "disabled_engines" (String.intercalate "," p.disabled_engines) else d
  d

end SearchParameters

/-- An HTTP response as seen by the client: status code plus the JSON
body that `response.json()` yields. -/
structure PyResponse where
  status_code : Nat
  body : Json

/-- One issued GET request: target URL and the parameter dict passed
to `requests.get`. -/
structure Request where
  url : String
  params : Dict
  deriving Repr

/-- The `SearXNG` client object: endpoint URL and default search
parameters. -/
structure SearXNG where
  endpoint : String
  search_params : SearchParameters

/-- The constructor `SearXNG.__init__`: appends `"/search"` to the base
URL and stores the default parameters. -/
def SearXNG.init (base_url : String)
    (search_params : SearchParameters := SearchParameters.init) : SearXNG :=
  { endpoint := base_url ++ "/search", search_params := search_params }

/-- The body of the loop in `SearXNG.parse_api_json`: builds one
`SearchResult` from one element of the `results` array.  A non-object
element has no `.get` method, which raises. -/
def parseResult : Json → Except PyError SearchResult
  | .obj fields => do
    let score ← pyFloat ((jsonGet fields "score").getD (.num 0))
    .ok { url := (jsonGet fields "url").getD (.str "")
          title := (jsonGet fields "title").getD (.str "")
          thumbnail := (jsonGet fields "thumbnail").getD (.str "")
          positions := (jsonGet fields "positions").getD (.str "")
          score := score }
  | _ => .error (.attributeError "object has no attribute get")

/-- The accumulation loop of `parse_api_json`: results are appended in
array order, the first failing element aborts the whole parse. -/
def parseResults : List Json → Except PyError (List SearchResult)
  | [] => .ok []
  | d :: rest => do
    let r ← parseResult d
    let rs ← parseResults rest
    .ok (r :: rs)

/-- The method `SearXNG.parse_api_json`: `json["results"]` raises
`KeyError` when absent (`TypeError` when the body is not a dict), then
every element of the array is parsed in order.  A non-list `results`
value is modelled as an iteration failure. -/
def SearXNG.parse_api_json (j : Json) : Except PyError (List SearchResult) :=
  match j with
  | .obj fields =>
    match jsonGet fields "results" with
    | none => .error (.keyError "results")
    | some (.arr elems) => parseResults elems
    | some _ => .error (.typeError "results value is not iterable as result dicts")
  | _ => .error (.typeError "json body is not a dict")

/-- Python's `range(1, n + 1)` over the page indices: the list
`[1, ..., n]`, empty when `n ≤ 0`. -/
def pyRange1 (n : Int) : List Nat := List.range' 1 n.toNat

/-- The pagination loop of `SearXNG.search`: for each page index the
shared parameter dict is mutated (`pageno` overwritten), one GET
request is issued, a non-200 status raises `ValueError`, and the parsed
page results are appended.  Returns the list of issued requests
together with the outcome. -/
def searchLoop (endpoint : String) (transport : Nat → PyResponse) (params : Dict) :
    List Nat → List Request × Except PyError (List SearchResult)
  | [] => ([], .ok [])
  | idx :: rest =>
    let params := dictSet params "pageno" (toString idx)
    let req : Request := { url := endpoint, params := params }
    let response := transport idx
    if response.status_code ≠ 200 then
      ([req], .error (.valueError
        ("searxng endpoint=" ++ endpoint ++ " status code was not 200, got=" ++
          toString response.status_code)))
    else
      match SearXNG.parse_api_json response.body with
      | .error e => ([req], .error e)
      | .ok rs =>
        let tail := searchLoop endpoint transport params rest
        (req :: tail.1, tail.2.map (fun acc => rs ++ acc))

/-- The method `SearXNG.search`: resolves the effective parameters
(`search_params` argument if not `None`, else the stored defaults),
serializes them once, injects `q`, and runs the pagination loop.  The
HTTP transport is passed explicitly as a function from the page index
to the response. -/
def SearXNG.search (self : SearXNG) (transport : Nat → PyResponse) (query : String)
    (n_pages : Int := 1) (search_params : Option SearchParameters := none) :
    List Request × Except PyError (List SearchResult) :=
  let dict := (search_params.getD self.search_params).as_dict
  let dict := dictSet dict "q" query
  searchLoop self.endpoint transport dict (pyRange1 n_pages)

/-- A page succeeds when its response has status 200 and its body
parses. -/
def pageOk (transport : Nat → PyResponse) (i : Nat) : Prop :=
  (transport i).status_code = 200 ∧ (SearXNG.parse_api_json (transport i).body).isOk = true

instance (t : Nat → PyResponse) (i : Nat) : Decidable (pageOk t i) := by
  unfold pageOk
  infer_instance

/-- The parsed results of one page (empty on a parse failure; only used
under a success hypothesis). -/
def pageResults (transport : Nat → PyResponse) (i : Nat) : List SearchResult :=
  match SearXNG.parse_api_json (transport i).body with
  | .ok rs => rs
  | .error _ => []

/-- Overwriting the value stored under one key leaves lookups of other
keys unchanged. -/
theorem dictFind_map_overwrite (d : Dict) (k k' v : String) (h : k ≠ k') :
    dictFind (d.map fun p => bif p.1 == k' then (k', v) else p) k = dictFind d k := by
  induction d with
  | nil => rfl
  | cons p rest ih =>
    obtain ⟨a, b⟩ := p
    cases hak : a == k' with
    | true =>
      have hkk : (k' == k) = false := beq_eq_false_iff_ne.mpr (Ne.symm h)
      have hak' : (a == k) = false := by
        rw [beq_iff_eq.mp hak]; exact hkk
      simp [dictFind, hak, hkk, hak', ih]
    | false =>
      cases hk : a == k <;> simp [dictFind, hak, hk, ih]

/-- Appending a pair with a different key leaves a lookup unchanged. -/
theorem dictFind_append_single_ne (d : Dict) (k k' v : String) (h : k ≠ k') :
    dictFind (d ++ [(k', v)]) k = dictFind d k := by
  induction d with
  | nil => simp [dictFind, beq_eq_false_iff_ne.mpr (Ne.symm h)]
  | cons p rest ih =>
    obtain ⟨a, b⟩ := p
    cases hk : a == k <;> simp [dictFind, hk, ih]

/-- Dict assignment under one key does not affect lookups of another
key. -/
theorem dictFind_dictSet_ne (d : Dict) (k k' v : String) (h : k ≠ k') :
    dictFind (dictSet d k' v) k = dictFind d k := by
  unfold dictSet
  cases d.any (fun p => p.1 == k')
  · exact dictFind_append_single_ne d k k' v h
  · exact dictFind_map_overwrite d k k' v h

/-- Step lemma for `as_dict`: a conditional assignment under a
different key preserves the absence of a key. -/
theorem dictFind_ite_dictSet_none {c : Prop} [Decidable c] (d : Dict) (k k' v : String)
    (h : k ≠ k') (hd : dictFind d k = none) :
    dictFind (if c then dictSet d k' v else d) k = none := by
  split
  · rw [dictFind_dictSet_ne d k k' v h]; exact hd
  · exact hd

/-- Assigning the same key twice keeps only the last value. -/
theorem dictSet_dictSet_same (d : Dict) (k a b : String) :
    dictSet (dictSet d k a) k b = dictSet d k b := by
  cases hmem : d.any (fun p => p.1 == k) with
  | true =>
    unfold dictSet
    rw [hmem]
    have hmem2 : (d.map fun p => bif p.1 == k then (k, a) else p).any
        (fun p => p.1 == k) = true := by
      simp only [List.any_eq_true] at hmem ⊢
      obtain ⟨x, hx, hxk⟩ := hmem
      exact ⟨(k, a), List.mem_map.mpr ⟨x, hx, by rw [hxk]; rfl⟩, by simp⟩
    simp only [cond_true, hmem2, List.map_map]
    refine List.map_congr_left fun p _ => ?_
    cases hp : p.1 == k <;> simp [Function.comp, hp]
  | false =>
    unfold dictSet
    rw [hmem]
    have hmem2 : ((d ++ [(k, a)]).any (fun p => p.1 == k)) = true := by
      simp [List.any_append]
    simp only [cond_false, hmem2, cond_true, List.map_append]
    have hall : ∀ p ∈ d, (p.1 == k) = false := by
      intro p hp
      cases hpk : p.1 == k
      · rfl
      · exact absurd
          (show (d.any fun q => q.1 == k) = true from List.any_eq_true.mpr ⟨p, hp, hpk⟩)
          (by simp [hmem])
    have hd : (d.map fun p => bif p.1 == k then (k, b) else p) = d.map id :=
      List.map_congr_left fun p hp => by simp [hall p hp]
    rw [hd, List.map_id]
    simp

/-- Closed form of the pagination loop when every requested page has
status 200 and a parseable body: one request per index with the
`pageno` overwrites collapsed, and the concatenation of the per-page
results. -/
theorem searchLoop_all_ok (endpoint : String) (t : Nat → PyResponse) :
    ∀ (idxs : List Nat) (d : Dict), (∀ i ∈ idxs, pageOk t i) →
      searchLoop endpoint t d idxs =
        (idxs.map fun i => ⟨endpoint, dictSet d "pageno" (toString i)⟩,
         .ok (idxs.map (pageResults t)).flatten) := by
  intro idxs
  induction idxs with
  | nil => intro d _; rfl
  | cons i rest ih =>
    intro d h
    obtain ⟨h200, hparse⟩ := h i (List.mem_cons_self i rest)
    have hrest : ∀ j ∈ rest, pageOk t j := fun j hj => h j (List.mem_cons_of_mem i hj)
    simp only [searchLoop]
    rw [if_neg (not_ne_iff.mpr h200)]
    cases hp : SearXNG.parse_api_json (t i).body with
    | error e =>
      rw [hp] at hparse
      exact absurd hparse (by simp [Except.isOk, Except.toBool])
    | ok rs =>
      rw [ih (dictSet d "pageno" (toString i)) hrest]
      have hmap : (rest.map fun j =>
          ({ url := endpoint,
             params := dictSet (dictSet d "pageno" (toString i)) "pageno" (toString j) } :
            Request)) =
          rest.map fun j => { url := endpoint, params := dictSet d "pageno" (toString j) } :=
        List.map_congr_left fun j _ => by rw [dictSet_dictSet_same]
      simp only [List.map_cons, List.flatten_cons, Except.map, Prod.mk.injEq]
      refine ⟨?_, ?_⟩
      · rw [hmap]
      · simp [pageResults, hp]

/-- The pagination loop stops at the first page whose status is not
200: the requests before it and its own request are issued, nothing
after, and the `ValueError` naming the endpoint and the status escapes. -/
theorem searchLoop_bad_status (endpoint : String) (t : Nat → PyResponse) (i : Nat)
    (post : List Nat) :
    ∀ (pre : List Nat) (d : Dict), (∀ j ∈ pre, pageOk t j) →
      (t i).status_code ≠ 200 →
      searchLoop endpoint t d (pre ++ i :: post) =
        ((pre ++ [i]).map fun j => ⟨endpoint, dictSet d "pageno" (toString j)⟩,
         .error (.valueError ("searxng endpoint=" ++ endpoint ++
           " status code was not 200, got=" ++ toString (t i).status_code))) := by
  intro pre
  induction pre with
  | nil =>
    intro d _ hbad
    simp only [List.nil_append, searchLoop]
    rw [if_pos hbad]
    rfl
  | cons j pre' ih =>
    intro d h hbad
    obtain ⟨h200, hparse⟩ := h j (List.mem_cons_self j pre')
    have hpre' : ∀ y ∈ pre', pageOk t y := fun y hy => h y (List.mem_cons_of_mem j hy)
    simp only [List.cons_append, searchLoop]
    rw [if_neg (not_ne_iff.mpr h200)]
    cases hp : SearXNG.parse_api_json (t j).body with
    | error e =>
      rw [hp] at hparse
      exact absurd hparse (by simp [Except.isOk, Except.toBool])
    | ok rs =>
      simp only [List.append_eq]
      rw [ih (dictSet d "pageno" (toString j)) hpre' hbad]
      have hmap : ((pre' ++ [i]).map fun y =>
          ({ url := endpoint,
             params := dictSet (dictSet d "pageno" (toString j)) "pageno" (toString y) } :
            Request)) =
          (pre' ++ [i]).map fun y => { url := endpoint, params := dictSet d "pageno" (toString y) } :=
        List.map_congr_left fun y _ => by rw [dictSet_dictSet_same]
      simp only [List.map_cons, Except.map, Prod.mk.injEq, List.cons_append]
      exact ⟨by rw [hmap], trivial⟩

/-- When an earlier-succeeding run reaches a page whose body fails to
parse, the loop's outcome is exactly that parse error. -/
theorem searchLoop_parse_error (endpoint : String) (t : Nat → PyResponse) (i : Nat)
    (post : List Nat) (e : PyError) :
    ∀ (pre : List Nat) (d : Dict), (∀ j ∈ pre, pageOk t j) →
      (t i).status_code = 200 → SearXNG.parse_api_json (t i).body = .error e →
      (searchLoop endpoint t d (pre ++ i :: post)).2 = .error e := by
  intro pre
  induction pre with
  | nil =>
    intro d _ h200 hp
    simp only [List.nil_append, searchLoop]
    rw [if_neg (not_ne_iff.mpr h200), hp]
  | cons j pre' ih =>
    intro d h h200 hp
    obtain ⟨hj200, hjparse⟩ := h j (List.mem_cons_self j pre')
    have hpre' : ∀ y ∈ pre', pageOk t y := fun y hy => h y (List.mem_cons_of_mem j hy)
    simp only [List.cons_append, searchLoop]
    rw [if_neg (not_ne_iff.mpr hj200)]
    cases hq : SearXNG.parse_api_json (t j).body with
    | error e' =>
      rw [hq] at hjparse
      exact absurd hjparse (by simp [Except.isOk, Except.toBool])
    | ok rs =>
      have htail := ih (dictSet d "pageno" (toString j)) hpre' h200 hp
      simp only [List.append_eq, htail, Except.map]

/-- Splitting the page range at an index it contains. -/
theorem pyRange1_split (n : Int) (i : Nat) (h1 : 1 ≤ i) (h2 : (i : Int) ≤ n) :
    pyRange1 n = List.range' 1 (i - 1) ++ i :: List.range' (i + 1) (n.toNat - i) := by
  have hi : i ≤ n.toNat := by omega
  unfold pyRange1
  have hlen : n.toNat = (1 + (n.toNat - i)) + (i - 1) := by omega
  nth_rewrite 1 [hlen]
  rw [← List.range'_append 1 (i - 1) (1 + (n.toNat - i)) 1]
  have hstart : 1 + 1 * (i - 1) = i := by omega
  rw [hstart]
  congr 1
  rw [Nat.add_comm 1 (n.toNat - i), List.range'_succ]

/-- The prefix of the split range is exactly the pages strictly before
the split index. -/
theorem mem_range_pre {n : Int} {i j : Nat} (h1 : 1 ≤ i) (h2 : (i : Int) ≤ n)
    (hj : j ∈ List.range' 1 (i - 1)) : j ∈ pyRange1 n ∧ j < i := by
  rw [List.mem_range'_1] at hj
  constructor
  · rw [pyRange1_split n i h1 h2]
    exact List.mem_append_left _ (List.mem_range'_1.mpr hj)
  · omega

/-- C4. A default-constructed `SearchParameters` serializes to exactly
the three pairs `pageno = "1"`, `format = "json"`, `image_proxy =
"True"`, in that order, and nothing else: every empty or unset field is
omitted. -/
theorem as_dict_default_exact :
    (SearchParameters.init).as_dict =
      [("pageno", "1"), ("format", "json"), ("image_proxy", "True")] := rfl

/-- C5. `update` performs a partial merge: every field whose argument
is the sentinel `none` keeps its prior value, every field whose
argument is supplied is replaced, and `format` is never touched; in
particular updating only the language from the defaults changes only
the `language` field. -/
theorem update_partial_merge :
    (∀ (p : SearchParameters) (c e : Option (List String)) (l : Option String)
        (pg : Option Int) (tr : Option String) (ip : Option Bool) (ss : Option String)
        (epl dpl een den : Option (List String)),
      p.update c e l pg tr ip ss epl dpl een den =
        { categories := c.getD p.categories
          engines := e.getD p.engines
          language := l.getD p.language
          pageno := pg.getD p.pageno
          time_range := tr.getD p.time_range
          image_proxy := ip.getD p.image_proxy
          safe_search := ss.getD p.safe_search
          enabled_plugins := epl.getD p.enabled_plugins
          disabled_plugins := dpl.getD p.disabled_plugins
          enabled_engines := een.getD p.enabled_engines
          disabled_engines := den.getD p.disabled_engines
          format := p.format }) ∧
    (SearchParameters.init).update none none (some "en") =
      { SearchParameters.init with language := "en" } := by
  constructor
  · intro p c e l pg tr ip ss epl dpl een den
    cases c <;> cases e <;> cases l <;> cases pg <;> cases tr <;> cases ip <;>
      cases ss <;> cases epl <;> cases dpl <;> cases een <;> cases den <;> rfl
  · rfl

/-- C9. No `SearchParameters` value, whatever its `time_range` field,
ever serializes a `time_range` key: `as_dict` never emits it. -/
theorem as_dict_never_emits_time_range (p : SearchParameters) :
    dictFind p.as_dict "time_range" = none := by
  simp only [SearchParameters.as_dict]
  apply dictFind_ite_dictSet_none _ _ _ _ (by decide)
  apply dictFind_ite_dictSet_none _ _ _ _ (by decide)
  apply dictFind_ite_dictSet_none _ _ _ _ (by decide)
  apply dictFind_ite_dictSet_none _ _ _ _ (by decide)
  apply dictFind_ite_dictSet_none _ _ _ _ (by decide)
  apply dictFind_ite_dictSet_none _ _ _ _ (by decide)
  apply dictFind_ite_dictSet_none _ _ _ _ (by decide)
  apply dictFind_ite_dictSet_none _ _ _ _ (by decide)
  rfl

/-- C10. With a non-positive page count the pagination loop body never
runs: no request is issued and the empty result list is returned. -/
theorem search_nonpositive_pages_no_requests (x : SearXNG) (t : Nat → PyResponse)
    (q : String) (sp : Option SearchParameters) (n : Int) (h : n ≤ 0) :
    x.search t q n sp = ([], .ok []) := by
  unfold SearXNG.search searchLoop pyRange1
  rw [Int.toNat_of_nonpos h]
  rfl

/-- C1. When every requested page returns status 200 and a parseable
body, `search` returns the per-page parsed result lists concatenated in
increasing page order, each page's results in array order. -/
theorem search_concatenates_pages_in_order (x : SearXNG) (t : Nat → PyResponse)
    (q : String) (n : Int) (sp : Option SearchParameters)
    (h : ∀ i ∈ pyRange1 n, pageOk t i) :
    (x.search t q n sp).2 = .ok ((pyRange1 n).map (pageResults t)).flatten := by
  simp only [SearXNG.search]
  rw [searchLoop_all_ok x.endpoint t (pyRange1 n) _ h]

/-- Concrete two-page transport: page 1 returns results A and B, page
2 returns result C. -/
def twoPageTransport : Nat → PyResponse := fun i =>
  if i = 1 then
    ⟨200, .obj [("results", .arr [.obj [("url", .str "A")], .obj [("url", .str "B")]])]⟩
  else
    ⟨200, .obj [("results", .arr [.obj [("url", .str "C")]])]⟩

/-- The record a url-only result parses to. -/
def urlOnlyResult (u : String) : SearchResult :=
  { url := .str u, title := .str "", thumbnail := .str "", positions := .str "",
    score := 0 }

/-- Witness for C1: two pages with results A, B and C yield exactly
the list A, B, C. -/
theorem search_concatenates_pages_in_order_witness :
    (∀ i ∈ pyRange1 2, pageOk twoPageTransport i) ∧
    ((SearXNG.init "http://h").search twoPageTransport "q" 2 none).2 =
      .ok [urlOnlyResult "A", urlOnlyResult "B", urlOnlyResult "C"] := by
  refine ⟨by decide, ?_⟩
  rw [search_concatenates_pages_in_order (SearXNG.init "http://h") twoPageTransport
    "q" 2 none (by decide)]
  rfl

/-- C3. Under the same success hypothesis, exactly one GET request is
issued per page index, in increasing order, each to the client's
endpoint with the single serialization of the effective configuration
extended by `q = query` and `pageno` overwritten with the page index. -/
theorem search_request_sequence (x : SearXNG) (t : Nat → PyResponse) (q : String)
    (n : Int) (sp : Option SearchParameters)
    (h : ∀ i ∈ pyRange1 n, pageOk t i) :
    (x.search t q n sp).1 = (pyRange1 n).map fun i =>
      ⟨x.endpoint, dictSet (dictSet ((sp.getD x.search_params).as_dict) "q" q)
        "pageno" (toString i)⟩ := by
  simp only [SearXNG.search]
  rw [searchLoop_all_ok x.endpoint t (pyRange1 n) _ h]

/-- Witness for C3: the two concrete requests of a two-page search. -/
theorem search_request_sequence_witness :
    (∀ i ∈ pyRange1 2, pageOk twoPageTransport i) ∧
    ((SearXNG.init "http://h").search twoPageTransport "q" 2 none).1 =
      [⟨"http://h/search",
        [("pageno", "1"), ("format", "json"), ("image_proxy", "True"), ("q", "q")]⟩,
       ⟨"http://h/search",
        [("pageno", "2"), ("format", "json"), ("image_proxy", "True"), ("q", "q")]⟩] := by
  refine ⟨by decide, ?_⟩
  rw [search_request_sequence (SearXNG.init "http://h") twoPageTransport "q" 2 none
    (by decide)]
  rfl

/-- C2. If the pages before page `i` succeed and page `i` answers with
a status other than 200, the whole call raises the `ValueError` naming
the endpoint and that status code: no result list is returned, requests
stop at page `i`, and nothing is retried. -/
theorem search_non_200_aborts (x : SearXNG) (t : Nat → PyResponse) (q : String)
    (n : Int) (sp : Option SearchParameters) (i : Nat)
    (h1 : 1 ≤ i) (h2 : (i : Int) ≤ n)
    (hpre : ∀ j ∈ pyRange1 n, j < i → pageOk t j)
    (hbad : (t i).status_code ≠ 200) :
    x.search t q n sp =
      ((pyRange1 (i : Int)).map fun j =>
        ⟨x.endpoint, dictSet (dictSet ((sp.getD x.search_params).as_dict) "q" q)
          "pageno" (toString j)⟩,
       .error (.valueError ("searxng endpoint=" ++ x.endpoint ++
         " status code was not 200, got=" ++ toString (t i).status_code))) := by
  simp only [SearXNG.search]
  rw [pyRange1_split n i h1 h2]
  rw [searchLoop_bad_status x.endpoint t i (List.range' (i + 1) (n.toNat - i))
    (List.range' 1 (i - 1)) _
    (fun j hj => hpre j (mem_range_pre h1 h2 hj).1 (mem_range_pre h1 h2 hj).2) hbad]
  have hconcat : List.range' 1 (i - 1) ++ [i] = pyRange1 (i : Int) := by
    unfold pyRange1
    rw [Int.toNat_natCast]
    have hh := List.range'_1_concat 1 (i - 1)
    have e1 : i - 1 + 1 = i := by omega
    have e2 : 1 + (i - 1) = i := by omega
    rw [e1, e2] at hh
    exact hh.symm
  rw [hconcat]

/-- Concrete three-page transport whose second page answers status
500. -/
def badStatusTransport : Nat → PyResponse := fun i =>
  if i = 1 then ⟨200, .obj [("results", .arr [.obj [("url", .str "A")]])]⟩
  else ⟨500, .null⟩

/-- Witness for C2: page 2 of a 3-page request returns 500, the call
fails with the descriptive error after issuing only two requests. -/
theorem search_non_200_aborts_witness :
    ((1 : Nat) ≤ 2 ∧ ((2 : Nat) : Int) ≤ 3 ∧
      (∀ j ∈ pyRange1 3, j < 2 → pageOk badStatusTransport j) ∧
      (badStatusTransport 2).status_code ≠ 200) ∧
    (SearXNG.init "http://h").search badStatusTransport "q" 3 none =
      ([⟨"http://h/search",
         [("pageno", "1"), ("format", "json"), ("image_proxy", "True"), ("q", "q")]⟩,
        ⟨"http://h/search",
         [("pageno", "2"), ("format", "json"), ("image_proxy", "True"), ("q", "q")]⟩],
       .error (.valueError
         "searxng endpoint=http://h/search status code was not 200, got=500")) := by
  refine ⟨⟨by decide, by decide, by decide, by decide⟩, ?_⟩
  rw [search_non_200_aborts (SearXNG.init "http://h") badStatusTransport "q" 3 none 2
    (by decide) (by decide) (by decide) (by decide)]
  rfl

/-- A result element whose `score` value is present but cannot be
coerced makes that element's parse fail with the coercion error. -/
theorem parseResult_error_of_bad_score (sub : List (String × Json)) (v : Json)
    (e : PyError) (hv : jsonGet sub "score" = some v) (he : pyFloat v = .error e) :
    parseResult (.obj sub) = .error e := by
  simp only [parseResult]
  rw [hv]
  show (pyFloat v >>= _) = _
  rw [he]
  rfl

/-- An unparseable element anywhere in the results array makes the
whole array parse fail. -/
theorem parseResults_error_of_mem (elems : List Json) (d : Json) (e : PyError)
    (hd : d ∈ elems) (he : parseResult d = .error e) :
    ∃ e', parseResults elems = .error e' := by
  induction elems with
  | nil => cases hd
  | cons a rest ih =>
    cases hp : parseResult a with
    | error e' =>
      refine ⟨e', ?_⟩
      show (parseResult a >>= _) = _
      rw [hp]
      rfl
    | ok r =>
      rcases List.mem_cons.mp hd with rfl | hmem
      · rw [hp] at he
        exact Except.noConfusion he
      · obtain ⟨e', he'⟩ := ih hmem
        refine ⟨e', ?_⟩
        show (parseResult a >>= _) = _
        rw [hp]
        show (parseResults rest >>= _) = _
        rw [he']
        rfl

/-- C6. Parsing fails when the top-level `results` key is absent
(`KeyError`), fails when any result's `score` is present but not
coercible to a number, and a page's parse error propagates unswallowed
out of `search`. -/
theorem parse_failures_propagate :
    (∀ fields : List (String × Json), jsonGet fields "results" = none →
      SearXNG.parse_api_json (.obj fields) = .error (.keyError "results")) ∧
    (∀ (fields : List (String × Json)) (elems : List Json)
        (sub : List (String × Json)) (v : Json) (e : PyError),
      jsonGet fields "results" = some (.arr elems) → Json.obj sub ∈ elems →
      jsonGet sub "score" = some v → pyFloat v = .error e →
      ∃ e', SearXNG.parse_api_json (.obj fields) = .error e') ∧
    (∀ (x : SearXNG) (t : Nat → PyResponse) (q : String) (n : Int)
        (sp : Option SearchParameters) (i : Nat) (e : PyError),
      1 ≤ i → (i : Int) ≤ n → (∀ j ∈ pyRange1 n, j < i → pageOk t j) →
      (t i).status_code = 200 → SearXNG.parse_api_json (t i).body = .error e →
      (x.search t q n sp).2 = .error e) := by
  refine ⟨?_, ?_, ?_⟩
  · intro fields h
    simp [SearXNG.parse_api_json, h]
  · intro fields elems sub v e hres hmem hscore hfloat
    obtain ⟨e', he'⟩ := parseResults_error_of_mem elems (.obj sub) e hmem
      (parseResult_error_of_bad_score sub v e hscore hfloat)
    exact ⟨e', by simp [SearXNG.parse_api_json, hres, he']⟩
  · intro x t q n sp i e h1 h2 hpre h200 hp
    simp only [SearXNG.search]
    rw [pyRange1_split n i h1 h2]
    exact searchLoop_parse_error x.endpoint t i (List.range' (i + 1) (n.toNat - i)) e
      (List.range' 1 (i - 1)) _
      (fun j hj => hpre j (mem_range_pre h1 h2 hj).1 (mem_range_pre h1 h2 hj).2)
      h200 hp

/-- Transport answering status 200 with a body that lacks the
`results` key. -/
def noResultsTransport : Nat → PyResponse := fun _ => ⟨200, .obj [("q", .str "x")]⟩

/-- Witness for C6: a missing `results` key surfaces as a `KeyError`
from `search`. -/
theorem parse_failures_propagate_witness :
    jsonGet [("q", Json.str "x")] "results" = none ∧
    ((SearXNG.init "http://h").search noResultsTransport "q" 1 none).2 =
      .error (.keyError "results") :=
  ⟨rfl,
   parse_failures_propagate.2.2 (SearXNG.init "http://h") noResultsTransport "q" 1 none
     1 (.keyError "results") (by decide) (by decide) (by decide) rfl rfl⟩

/-- API body whose single result carries a non-numeric score string. -/
def badScoreBody : Json :=
  .obj [("results", .arr [.obj [("score", .str "abc")]])]

/-- C7 counterexample: a result whose `score` is the unparseable string
"abc" makes the parse raise the coercion `ValueError`; no record with
score 0.0 is produced. -/
theorem score_unparseable_fails_counterexample :
    SearXNG.parse_api_json badScoreBody =
      .error (.valueError "could not convert string to float: abc") ∧
    ∀ rs, SearXNG.parse_api_json badScoreBody ≠ .ok rs :=
  ⟨rfl, fun _ h => Except.noConfusion h⟩

/-- C7 amended: `score` defaults to 0.0 exactly when the `score` entry
is missing; when present but not coercible to a number, the element's
parse fails with the coercion error instead of producing a record. -/
theorem score_defaults_only_when_missing :
    (∀ sub : List (String × Json), jsonGet sub "score" = none →
      parseResult (.obj sub) = .ok
        { url := (jsonGet sub "url").getD (.str "")
          title := (jsonGet sub "title").getD (.str "")
          thumbnail := (jsonGet sub "thumbnail").getD (.str "")
          positions := (jsonGet sub "positions").getD (.str "")
          score := 0 }) ∧
    (∀ (sub : List (String × Json)) (v : Json) (e : PyError),
      jsonGet sub "score" = some v → pyFloat v = .error e →
      parseResult (.obj sub) = .error e) := by
  constructor
  · intro sub h
    simp only [parseResult]
    rw [h]
    rfl
  · exact parseResult_error_of_bad_score

/-- Witness for C7 amended: a url-only result object has no `score`
entry and parses with score 0. -/
theorem score_defaults_only_when_missing_witness :
    jsonGet [("url", Json.str "u")] "score" = none ∧
    parseResult (.obj [("url", .str "u")]) = .ok
      { url := .str "u", title := .str "", thumbnail := .str "",
        positions := .str "", score := 0 } :=
  ⟨rfl, score_defaults_only_when_missing.1 [("url", Json.str "u")] rfl⟩

/-- C8 amended: a result object containing only `url` parses without
failure into a record whose `title`, `thumbnail` and `positions` all
default to the empty string (the code's shared `""` default — not the
empty list) and whose score is 0. -/
theorem url_only_result_parses_with_string_defaults (u : Json) :
    SearXNG.parse_api_json (.obj [("results", .arr [.obj [("url", u)]])]) =
      .ok [{ url := u, title := .str "", thumbnail := .str "",
             positions := .str "", score := 0 }] := rfl

/-- C8 counterexample: the record parsed from a url-only result has
`positions` equal to the empty string, which is not the empty list. -/
theorem positions_not_empty_list_counterexample :
    SearXNG.parse_api_json (.obj [("results", .arr [.obj [("url", .str "u")]])]) =
      .ok [{ url := .str "u", title := .str "", thumbnail := .str "",
             positions := .str "", score := 0 }] ∧
    Json.str "" ≠ Json.arr [] :=
  ⟨rfl, fun h => Json.noConfusion h⟩

/-- Witness for C10 at the concrete page count 0. -/
theorem search_nonpositive_pages_no_requests_witness :
    (0 : Int) ≤ 0 ∧
      (SearXNG.init "http://h").search (fun _ => ⟨200, .null⟩) "q" 0 none = ([], .ok []) :=
  ⟨le_refl 0,
   search_nonpositive_pages_no_requests (SearXNG.init "http://h")
     (fun _ => ⟨200, .null⟩) "q" none 0 (le_refl 0)⟩

end Searxng
